import Mathlib

/-
Verification of the transport-selection and device-enumeration core of the
streamdeck device manager (`src/streamdeck/device_manager.py`).

The transport backends (`Dummy`, `LibUSBHIDAPI`) and the per-model device
wrapper classes are external collaborators: the embedding parametrises over
their behaviour.  A backend is a pair of outcomes (probe, construct), a
transport instance is its `enumerate(vid, pid)` function, and device models
wrap a raw descriptor with the tag of the model class that was applied.
Exceptions are modelled with `Except`; the three shapes of `ProbeError`
raised by `_get_transport` become the constructors of `ProbeError` below.
-/

namespace StreamDeckLib

/-- A transport instance, as consumed by `DeviceManager.enumerate`: its
`enumerate(vid=…, pid=…)` method is a live bus query that either returns a
list of raw device descriptors or raises a fault of type `F`. -/
structure Transport (F D : Type) where
  enum : Nat → Nat → Except F (List D)

/-- A transport backend class, as consumed by `DeviceManager._get_transport`:
its static `probe()` either succeeds or raises a cause of type `C`, and its
constructor `transport_class()` either returns an instance of type `T` or
raises a cause of type `C`. -/
structure Backend (C T : Type) where
  probe : Except C Unit
  construct : Except C T

/-- The shapes of `ProbeError` raised by `_get_transport`:
`"Unknown HID transport backend …"` (carrying the requested name),
`"Probe failed on HID backend …"` (carrying the name and the underlying
exception), and `"Probe failed to find any functional HID backend."`
(carrying the accumulated `probe_errors` map as an association list in
insertion order). -/
inductive ProbeError (C : Type) where
  | unknownBackend (name : String)
  | probeFailed (backend : String) (cause : C)
  | noFunctionalBackend (errors : List (String × C))
  deriving DecidableEq

/-- Python truthiness of the `transport` argument (`if transport:`):
false for `None` and for the empty string. -/
def truthy : Option String → Bool
  | none => false
  | some s => !s.isEmpty

/-- `transports.get(transport)`: dictionary lookup in the registry, modelled
on an association list (keys are unique in the source dictionary). -/
def lookupBackend {C T : Type} (reg : List (String × Backend C T)) (name : String) :
    Option (Backend C T) :=
  (reg.find? (fun p => p.1 == name)).map Prod.snd

/-- The body of each `try` block: `transport_class.probe()` followed by
`return transport_class()`; the first raised exception escapes. -/
def tryBackend {C T : Type} (b : Backend C T) : Except C T :=
  match b.probe with
  | .error c => .error c
  | .ok _ => b.construct

/-- The auto-probe loop of `_get_transport` (lines 69-82): iterate the
registry entries in insertion order, skip the `"dummy"` entry, return the
first backend whose probe and construction both succeed, and otherwise
record `(name, cause)` in the accumulating `probe_errors` and continue;
when the loop ends, raise the aggregated `ProbeError`. -/
def selectAuto {C T : Type} :
    List (String × Backend C T) → List (String × C) → Except (ProbeError C) T
  | [], errs => .error (.noFunctionalBackend errs)
  | (name, b) :: rest, errs =>
    if name == "dummy" then selectAuto rest errs
    else
      match tryBackend b with
      | .ok t => .ok t
      | .error c => selectAuto rest (errs ++ [(name, c)])

/-- The fixed registry built inside `_get_transport`:
`{"dummy": Dummy, "libusb": LibUSBHIDAPI}`, in insertion order, with the two
collaborator backend classes as parameters. -/
def transportsRegistry {C T : Type} (dummy libusb : Backend C T) :
    List (String × Backend C T) :=
  [("dummy", dummy), ("libusb", libusb)]

/-- `DeviceManager._get_transport` (lines 40-82).  With a truthy explicit
name: unknown names raise `unknownBackend`, and a probe or construction
failure of the named backend raises `probeFailed` with that name and cause.
Otherwise the auto-probe loop runs over the registry. -/
def getTransport {C T : Type} (dummy libusb : Backend C T)
    (transport : Option String) : Except (ProbeError C) T :=
  if truthy transport then
    let name := transport.getD ""
    match lookupBackend (transportsRegistry dummy libusb) name with
    | none => .error (.unknownBackend name)
    | some b =>
      match tryBackend b with
      | .ok t => .ok t
      | .error c => .error (.probeFailed name c)
  else
    selectAuto (transportsRegistry dummy libusb) []

/-- A device-model wrapper instance: one constructor per device class
imported by `device_manager.py`, each taking the raw descriptor returned by
the transport as its sole argument. -/
inductive StreamDeck (D : Type) where
  | original (d : D)
  | originalV2 (d : D)
  | mini (d : D)
  | xl (d : D)
  deriving DecidableEq

def USB_VID_ELGATO : Nat := 0x0fd9
def USB_PID_STREAMDECK_ORIGINAL : Nat := 0x0060
def USB_PID_STREAMDECK_ORIGINAL_V2 : Nat := 0x006d
def USB_PID_STREAMDECK_MINI : Nat := 0x0063
def USB_PID_STREAMDECK_XL : Nat := 0x006c

/-- The `products` table built inside `enumerate` (lines 100-105), in source
order: (vid, pid, device-model constructor) triples. -/
def products (D : Type) : List (Nat × Nat × (D → StreamDeck D)) :=
  [(USB_VID_ELGATO, USB_PID_STREAMDECK_ORIGINAL, StreamDeck.original),
   (USB_VID_ELGATO, USB_PID_STREAMDECK_ORIGINAL_V2, StreamDeck.originalV2),
   (USB_VID_ELGATO, USB_PID_STREAMDECK_MINI, StreamDeck.mini),
   (USB_VID_ELGATO, USB_PID_STREAMDECK_XL, StreamDeck.xl)]

/-- The `for vid, pid, class_type in products:` loop of `enumerate`
(lines 109-111): query the transport per signature, wrap each returned
descriptor with the signature's constructor, and extend the result list; a
raised fault escapes immediately, discarding the partial list. -/
def enumProducts {F D : Type} (t : Transport F D) :
    List (Nat × Nat × (D → StreamDeck D)) → Except F (List (StreamDeck D))
  | [] => .ok []
  | (vid, pid, ctor) :: rest => do
    let found ← t.enum vid pid
    let others ← enumProducts t rest
    pure (found.map ctor ++ others)

/-- `DeviceManager`: its only field is the transport instance selected at
construction time. -/
structure DeviceManager (F D : Type) where
  transport : Transport F D

/-- `DeviceManager.__init__` (lines 84-90): `self.transport =
self._get_transport(transport)`; a raised `ProbeError` escapes and no
manager is produced. -/
def DeviceManager.init {C F D : Type} (dummy libusb : Backend C (Transport F D))
    (name : Option String) : Except (ProbeError C) (DeviceManager F D) :=
  (getTransport dummy libusb name).map DeviceManager.mk

/-- `DeviceManager.enumerate` (lines 92-113): run the products loop against
the held transport. -/
def DeviceManager.enumerate {F D : Type} (m : DeviceManager F D) :
    Except F (List (StreamDeck D)) :=
  enumProducts m.transport (products D)

/-- `enumerate` as a method acting on the object state: the body of the
method reads `self.transport` and never assigns to `self`, so the explicit
state-passing form returns the input manager as the post-state. -/
def DeviceManager.enumerateStep {F D : Type} (m : DeviceManager F D) :
    Except F (List (StreamDeck D)) × DeviceManager F D :=
  (m.enumerate, m)

/-! ### Basic facts about the selector -/

theorem truthy_of_ne_empty {s : String} (h : ¬ s = "") : truthy (some s) = true := by
  have he : s.isEmpty = false := by
    rw [Bool.eq_false_iff]
    intro hh
    exact h ((String.isEmpty_iff s).mp hh)
  simp [truthy, he]

theorem truthy_empty : truthy (some "") = false := by
  simp [truthy, (String.isEmpty_iff "").mpr rfl]

theorem lookupBackend_cases {C T : Type} (dummy libusb : Backend C T)
    (name : String) (b : Backend C T)
    (hreg : lookupBackend (transportsRegistry dummy libusb) name = some b) :
    (name = "dummy" ∧ b = dummy) ∨ (name = "libusb" ∧ b = libusb) := by
  by_cases h1 : name = "dummy"
  · subst h1
    left
    refine ⟨rfl, ?_⟩
    simpa [lookupBackend, transportsRegistry] using hreg.symm
  · by_cases h2 : name = "libusb"
    · subst h2
      right
      refine ⟨rfl, ?_⟩
      simpa [lookupBackend, transportsRegistry] using hreg.symm
    · exfalso
      have hd : (("dummy" : String) == name) = false := by
        simp [Ne.symm h1]
      have hl : (("libusb" : String) == name) = false := by
        simp [Ne.symm h2]
      simp [lookupBackend, transportsRegistry, List.find?, hd, hl] at hreg

theorem selectAuto_no_unknown {C T : Type} (reg : List (String × Backend C T))
    (errs : List (String × C)) (n : String) :
    selectAuto reg errs ≠ .error (.unknownBackend n) := by
  induction reg generalizing errs with
  | nil => simp [selectAuto]
  | cons p rest ih =>
    obtain ⟨name, b⟩ := p
    simp only [selectAuto]
    split
    · exact ih errs
    · cases htb : tryBackend b <;> simp [htb]
      exact ih _

/-! ### Claim theorems for the backend selector -/

/-- C1: for every backend name present in the registry, if selecting that
backend explicitly and its probe raises, or its probe succeeds but its
construction raises (`tryBackend b = .error c`), then `_get_transport`
fails with the `probeFailed` error naming exactly that backend and carrying
the underlying cause — independently of the other backend's behaviour, so
no fallback happens in the explicit branch. -/
theorem getTransport_explicit_probeFailed {C T : Type} (dummy libusb : Backend C T)
    (name : String) (b : Backend C T) (c : C)
    (hreg : lookupBackend (transportsRegistry dummy libusb) name = some b)
    (hfail : tryBackend b = .error c) :
    getTransport dummy libusb (some name) = .error (.probeFailed name c) := by
  rcases lookupBackend_cases dummy libusb name b hreg with ⟨hn, hb⟩ | ⟨hn, hb⟩ <;>
      subst hn <;> subst hb
  · simp [getTransport, truthy_of_ne_empty (show ¬ ("dummy" : String) = "" by decide),
      lookupBackend, transportsRegistry, hfail]
  · simp [getTransport, truthy_of_ne_empty (show ¬ ("libusb" : String) = "" by decide),
      lookupBackend, transportsRegistry, hfail]

theorem getTransport_explicit_probeFailed_witness :
    getTransport (⟨.ok (), .ok 0⟩ : Backend String Nat)
      ⟨.error "usb library missing", .ok 1⟩ (some "libusb")
      = .error (.probeFailed "libusb" "usb library missing") :=
  getTransport_explicit_probeFailed ⟨.ok (), .ok 0⟩ ⟨.error "usb library missing", .ok 1⟩
    "libusb" ⟨.error "usb library missing", .ok 1⟩ "usb library missing" rfl rfl

/-- C2: for every string that is not a registered backend identifier
(and is a truthy name, so the explicit branch is taken), `_get_transport`
fails with the `unknownBackend` error, whatever the two backends would do. -/
theorem getTransport_unknownBackend {C T : Type} (dummy libusb : Backend C T)
    (name : String) (hne : ¬ name = "")
    (hreg : lookupBackend (transportsRegistry dummy libusb) name = none) :
    getTransport dummy libusb (some name) = .error (.unknownBackend name) := by
  simp [getTransport, truthy_of_ne_empty hne, hreg]

/-- The empty string is not a registered backend identifier, yet passing it
explicitly does not produce the `unknownBackend` error: the truthiness guard
sends it to the auto-probe branch (here the functional `libusb` backend is
selected instead). -/
theorem getTransport_unknownBackend_counterexample :
    getTransport (⟨.ok (), .ok 0⟩ : Backend String Nat) ⟨.ok (), .ok 1⟩ (some "")
      ≠ .error (.unknownBackend "") := by
  intro h
  have h2 : (Except.ok 1 : Except (ProbeError String) Nat)
      = .error (.unknownBackend "") := h
  exact Except.noConfusion h2

theorem getTransport_unknownBackend_witness :
    getTransport (⟨.ok (), .ok 0⟩ : Backend String Nat) ⟨.ok (), .ok 1⟩ (some "hidapi")
      = .error (.unknownBackend "hidapi") :=
  getTransport_unknownBackend ⟨.ok (), .ok 0⟩ ⟨.ok (), .ok 1⟩ "hidapi" (by decide) rfl

/-- Whether an `Except` computation returned normally (did not raise). -/
def isOk {E A : Type} : Except E A → Bool
  | .ok _ => true
  | .error _ => false

theorem selectAuto_all_fail {C T : Type} (f : String → C)
    (reg : List (String × Backend C T)) (acc : List (String × C))
    (h : ∀ p ∈ reg, ¬ p.1 = "dummy" → tryBackend p.2 = .error (f p.1)) :
    selectAuto reg acc = .error (.noFunctionalBackend
      (acc ++ (reg.filter (fun p => !(p.1 == "dummy"))).map (fun p => (p.1, f p.1)))) := by
  induction reg generalizing acc with
  | nil => simp [selectAuto]
  | cons p rest ih =>
    obtain ⟨name, b⟩ := p
    simp only [selectAuto]
    by_cases hd : name = "dummy"
    · rw [if_pos (by simp [hd])]
      rw [ih acc (fun q hq => h q (by simp [hq]))]
      simp [List.filter_cons, hd]
    · rw [if_neg (by simp [hd])]
      have hfb := h (name, b) (by simp) hd
      simp only [hfb]
      rw [ih (acc ++ [(name, f name)]) (fun q hq => h q (by simp [hq]))]
      simp [List.filter_cons, hd]

/-- C3: the auto-probe loop of `_get_transport` visits the registered
backends in registration order, skips the `"dummy"` stub, and returns the
instance of the first backend whose probe and construction both succeed:
whenever every earlier entry is the stub or fails, the first succeeding
non-stub backend's instance is returned, whatever comes after it — so an
earlier failure never prevents trying the next candidate, and when two
succeeding backends are both registered the earlier one wins. -/
theorem selectAuto_first_success {C T : Type}
    (pre rest : List (String × Backend C T)) (name : String) (b : Backend C T)
    (t : T) (errs : List (String × C))
    (hname : ¬ name = "dummy")
    (hok : tryBackend b = .ok t)
    (hpre : ∀ p ∈ pre, p.1 = "dummy" ∨ isOk (tryBackend p.2) = false) :
    selectAuto (pre ++ (name, b) :: rest) errs = .ok t := by
  induction pre generalizing errs with
  | nil =>
    simp only [List.nil_append, selectAuto]
    rw [if_neg (by simp [hname])]
    simp [hok]
  | cons p pre ih =>
    obtain ⟨n, pb⟩ := p
    simp only [List.cons_append, selectAuto]
    by_cases hnd : n = "dummy"
    · rw [if_pos (by simp [hnd])]
      exact ih errs (fun q hq => hpre q (List.mem_cons_of_mem _ hq))
    · rw [if_neg (by simp [hnd])]
      rcases hpre (n, pb) (List.mem_cons_self _ _) with hd | hf
      · exact absurd hd hnd
      · cases htb : tryBackend pb with
        | ok u => rw [htb] at hf; simp [isOk] at hf
        | error c =>
          simp only [htb]
          exact ih (errs ++ [(n, c)]) (fun q hq => hpre q (List.mem_cons_of_mem _ hq))

theorem selectAuto_first_success_witness :
    selectAuto
      [("dummy", (⟨.ok (), .ok 7⟩ : Backend String Nat)),
       ("hidraw", ⟨.error "probe refused", .ok 8⟩),
       ("backendA", ⟨.ok (), .ok 9⟩),
       ("backendB", ⟨.ok (), .ok 10⟩)] []
      = .ok 9 :=
  selectAuto_first_success
    [("dummy", ⟨.ok (), .ok 7⟩), ("hidraw", ⟨.error "probe refused", .ok 8⟩)]
    [("backendB", ⟨.ok (), .ok 10⟩)] "backendA" ⟨.ok (), .ok 9⟩ 9 []
    (by decide) rfl
    (by
      intro p hp
      simp only [List.mem_cons, List.not_mem_nil, or_false] at hp
      rcases hp with h | h
      · subst h; left; rfl
      · subst h; right; rfl)

/-- C4: in auto-probe mode (absent name), when every non-stub registered
backend fails its probe or construction, `_get_transport` fails with the
aggregated error whose map holds exactly one entry per non-stub registered
backend, keyed by that backend's identifier and carrying its own cause, in
registration order. -/
theorem getTransport_auto_all_fail {C T : Type} (dummy libusb : Backend C T)
    (f : String → C)
    (h : ∀ p ∈ transportsRegistry dummy libusb, ¬ p.1 = "dummy" →
      tryBackend p.2 = .error (f p.1)) :
    getTransport dummy libusb none = .error (.noFunctionalBackend
      (((transportsRegistry dummy libusb).filter (fun p => !(p.1 == "dummy"))).map
        (fun p => (p.1, f p.1)))) := by
  have hg : getTransport dummy libusb none =
      selectAuto (transportsRegistry dummy libusb) [] := by
    simp [getTransport, truthy]
  rw [hg, selectAuto_all_fail f _ [] h]
  simp

theorem getTransport_auto_all_fail_witness :
    getTransport (⟨.ok (), .ok 0⟩ : Backend String Nat)
      ⟨.error "hidapi not present", .ok 1⟩ none
      = .error (.noFunctionalBackend [("libusb", "hidapi not present")]) := by
  have h := getTransport_auto_all_fail (⟨.ok (), .ok 0⟩ : Backend String Nat)
    ⟨.error "hidapi not present", .ok 1⟩ (fun _ => "hidapi not present")
    (by
      intro p hp hnd
      simp only [transportsRegistry, List.mem_cons, List.not_mem_nil, or_false] at hp
      rcases hp with h | h
      · exact absurd (by rw [h]) hnd
      · subst h; rfl)
  simpa [transportsRegistry] using h

/-- C10: the empty string is falsy, so passing it as the explicit transport
name takes the auto-probe branch exactly as an absent name does, and in
particular can never produce the `unknownBackend` error. -/
theorem getTransport_empty_string_is_auto {C T : Type} (dummy libusb : Backend C T) :
    getTransport dummy libusb (some "") = getTransport dummy libusb none ∧
    ∀ n, getTransport dummy libusb (some "") ≠ .error (.unknownBackend n) := by
  have h : getTransport dummy libusb (some "") =
      selectAuto (transportsRegistry dummy libusb) [] := by
    simp [getTransport, truthy_empty]
  constructor
  · rw [h]
    simp [getTransport, truthy]
  · intro n
    rw [h]
    exact selectAuto_no_unknown _ _ n

/-! ### Claim theorems for enumeration -/

theorem exceptBind_ok {E A B : Type} (a : A) (k : A → Except E B) :
    (Except.ok a >>= k : Except E B) = k a := rfl

theorem exceptBind_error {E A B : Type} (e : E) (k : A → Except E B) :
    (Except.error e >>= k : Except E B) = .error e := rfl

/-- C5: `enumerate()` returns the concatenation, in signature table order,
of the per-signature results: the models built from the original-signature
descriptors come first, then original-v2, then mini, then xl, each group
preserving the order returned by the transport. -/
theorem enumerate_concat_in_table_order {F D : Type} (m : DeviceManager F D)
    (ds1 ds2 ds3 ds4 : List D)
    (h1 : m.transport.enum USB_VID_ELGATO USB_PID_STREAMDECK_ORIGINAL = .ok ds1)
    (h2 : m.transport.enum USB_VID_ELGATO USB_PID_STREAMDECK_ORIGINAL_V2 = .ok ds2)
    (h3 : m.transport.enum USB_VID_ELGATO USB_PID_STREAMDECK_MINI = .ok ds3)
    (h4 : m.transport.enum USB_VID_ELGATO USB_PID_STREAMDECK_XL = .ok ds4) :
    m.enumerate = .ok (ds1.map StreamDeck.original ++ ds2.map StreamDeck.originalV2 ++
      ds3.map StreamDeck.mini ++ ds4.map StreamDeck.xl) := by
  simp [DeviceManager.enumerate, enumProducts, products, h1, h2, h3, h4,
    exceptBind_ok, List.append_assoc]

theorem enumerate_concat_in_table_order_witness :
    (DeviceManager.mk
        ⟨fun _ p => if p = 0x0060 then .ok [11] else
          if p = 0x006d then .ok [21, 22] else .ok ([] : List Nat)⟩ :
      DeviceManager String Nat).enumerate
      = .ok [.original 11, .originalV2 21, .originalV2 22] := by
  simpa using enumerate_concat_in_table_order
    (DeviceManager.mk ⟨fun _ p => if p = 0x0060 then .ok [11] else
      if p = 0x006d then .ok [21, 22] else .ok ([] : List Nat)⟩)
    [11] [21, 22] [] [] rfl rfl rfl rfl

/-- C6: when the transport reports no device for any of the four product
signatures, `enumerate()` returns the empty list and does not fail. -/
theorem enumerate_all_empty {F D : Type} (m : DeviceManager F D)
    (h1 : m.transport.enum USB_VID_ELGATO USB_PID_STREAMDECK_ORIGINAL = .ok [])
    (h2 : m.transport.enum USB_VID_ELGATO USB_PID_STREAMDECK_ORIGINAL_V2 = .ok [])
    (h3 : m.transport.enum USB_VID_ELGATO USB_PID_STREAMDECK_MINI = .ok [])
    (h4 : m.transport.enum USB_VID_ELGATO USB_PID_STREAMDECK_XL = .ok []) :
    m.enumerate = .ok [] := by
  simp [DeviceManager.enumerate, enumProducts, products, h1, h2, h3, h4,
    exceptBind_ok]

theorem enumerate_all_empty_witness :
    (DeviceManager.mk ⟨fun _ _ => .ok ([] : List Nat)⟩ :
      DeviceManager String Nat).enumerate = .ok [] :=
  enumerate_all_empty (DeviceManager.mk ⟨fun _ _ => .ok []⟩) rfl rfl rfl rfl

theorem enumProducts_error {F D : Type} (t : Transport F D) (f : F)
    (pre post : List (Nat × Nat × (D → StreamDeck D)))
    (sig : Nat × Nat × (D → StreamDeck D))
    (hpre : ∀ e ∈ pre, ∃ ds, t.enum e.1 e.2.1 = .ok ds)
    (hsig : t.enum sig.1 sig.2.1 = .error f) :
    enumProducts t (pre ++ sig :: post) = .error f := by
  induction pre with
  | nil =>
    obtain ⟨v, p, c⟩ := sig
    simp only [List.nil_append, enumProducts]
    simp only at hsig
    simp [hsig, exceptBind_error]
  | cons e pre ih =>
    obtain ⟨v, p, c⟩ := e
    obtain ⟨ds, hds⟩ := hpre (v, p, c) (List.mem_cons_self _ _)
    simp only at hds
    simp only [List.cons_append, enumProducts]
    rw [hds]
    simp [exceptBind_ok, ih (fun q hq => hpre q (List.mem_cons_of_mem _ hq)),
      exceptBind_error]

/-- C7: if the transport's enumeration raises for some signature of the
table while every earlier signature succeeded, `enumerate()` propagates
that fault immediately and returns no partial device list. -/
theorem enumerate_fault_propagates {F D : Type} (m : DeviceManager F D) (f : F)
    (pre post : List (Nat × Nat × (D → StreamDeck D)))
    (sig : Nat × Nat × (D → StreamDeck D))
    (hsplit : products D = pre ++ sig :: post)
    (hpre : ∀ e ∈ pre, ∃ ds, m.transport.enum e.1 e.2.1 = .ok ds)
    (hsig : m.transport.enum sig.1 sig.2.1 = .error f) :
    m.enumerate = .error f := by
  rw [DeviceManager.enumerate, hsplit]
  exact enumProducts_error _ f pre post sig hpre hsig

theorem enumerate_fault_propagates_witness :
    (DeviceManager.mk
        ⟨fun _ p => if p = 0x0060 then .ok [1] else .error "bus disconnect"⟩ :
      DeviceManager String Nat).enumerate = .error "bus disconnect" :=
  enumerate_fault_propagates
    (DeviceManager.mk ⟨fun _ p => if p = 0x0060 then .ok [1] else .error "bus disconnect"⟩)
    "bus disconnect"
    [(USB_VID_ELGATO, USB_PID_STREAMDECK_ORIGINAL, StreamDeck.original)]
    [(USB_VID_ELGATO, USB_PID_STREAMDECK_MINI, StreamDeck.mini),
     (USB_VID_ELGATO, USB_PID_STREAMDECK_XL, StreamDeck.xl)]
    (USB_VID_ELGATO, USB_PID_STREAMDECK_ORIGINAL_V2, StreamDeck.originalV2)
    rfl
    (by
      intro e he
      simp only [List.mem_cons, List.not_mem_nil, or_false] at he
      subst he
      exact ⟨[1], rfl⟩)
    rfl

/-- C8: the transport held by a `DeviceManager` is fixed at construction —
`__init__` stores exactly the instance `_get_transport` produced — and an
`enumerate()` call leaves the whole manager state, its transport field
included, unchanged. -/
theorem manager_transport_fixed {C F D : Type}
    (dummy libusb : Backend C (Transport F D)) (name : Option String)
    (m : DeviceManager F D)
    (hinit : DeviceManager.init dummy libusb name = .ok m) :
    getTransport dummy libusb name = .ok m.transport ∧ m.enumerateStep.2 = m := by
  refine ⟨?_, rfl⟩
  unfold DeviceManager.init at hinit
  cases hg : getTransport dummy libusb name with
  | error e =>
    rw [hg] at hinit
    simp [Except.map] at hinit
  | ok t =>
    rw [hg] at hinit
    simp [Except.map] at hinit
    rw [← hinit]

theorem manager_transport_fixed_witness :
    getTransport (⟨.ok (), .ok ⟨fun _ _ => .ok []⟩⟩ : Backend String (Transport String Nat))
        ⟨.ok (), .ok ⟨fun _ _ => .error "x"⟩⟩ (some "dummy")
      = .ok (DeviceManager.mk ⟨fun _ _ => .ok []⟩ : DeviceManager String Nat).transport ∧
    (DeviceManager.mk ⟨fun _ _ => .ok ([] : List Nat)⟩ :
      DeviceManager String Nat).enumerateStep.2
      = DeviceManager.mk ⟨fun _ _ => .ok []⟩ :=
  manager_transport_fixed ⟨.ok (), .ok ⟨fun _ _ => .ok []⟩⟩
    ⟨.ok (), .ok ⟨fun _ _ => .error "x"⟩⟩ (some "dummy")
    (DeviceManager.mk ⟨fun _ _ => .ok []⟩) rfl

theorem enumProducts_congr {F D : Type} (t1 t2 : Transport F D)
    (h : ∀ v p, t1.enum v p = t2.enum v p) :
    ∀ table, enumProducts t1 table = enumProducts t2 table
  | [] => rfl
  | (v, p, c) :: rest => by
    simp only [enumProducts, h v p, enumProducts_congr t1 t2 h rest]

/-- C9: `enumerate()` caches nothing between calls: after a first call
(whose post-state is the unchanged manager), a second call during which the
transport returns the same descriptor sequences for every signature yields
a structurally equal result list, rebuilt from the transport's answers. -/
theorem enumerate_no_caching {F D : Type} (m m' : DeviceManager F D)
    (_hstep : m.enumerateStep.2 = m')
    (hsame : ∀ v p, m'.transport.enum v p = m.transport.enum v p) :
    m'.enumerateStep.1 = m.enumerateStep.1 := by
  simp only [DeviceManager.enumerateStep, DeviceManager.enumerate]
  exact enumProducts_congr m'.transport m.transport hsame (products D)

theorem enumerate_no_caching_witness :
    (DeviceManager.mk ⟨fun v _ => .ok [v]⟩ : DeviceManager String Nat).enumerateStep.1
      = (DeviceManager.mk ⟨fun v _ => .ok [v]⟩ :
          DeviceManager String Nat).enumerateStep.1 :=
  enumerate_no_caching (DeviceManager.mk ⟨fun v _ => .ok [v]⟩)
    (DeviceManager.mk ⟨fun v _ => .ok [v]⟩) rfl (fun _ _ => rfl)

end StreamDeckLib
